import Mathlib

/-!
Verification development for the PyMechTurk repository.

The repository builds MTurk QuestionForm / AnswerKey XML documents with
Python's xml.etree.ElementTree and renders them with ET.tostring.  The
definitions below are a shallow embedding of src/pymechturk/qualification/
xml_generator.py and src/pymechturk/config.py:

* Python ET.Element becomes the inductive Element; an element's text field
  may hold a Python str or (as the source sometimes assigns) a Python int,
  so it is modelled as Option PyVal.
* ET.tostring's serializer is embedded as serializeElem/serializeList,
  including its text/attribute escaping passes, its truthiness test
  "if elem.text or len(elem)" and its TypeError on non-string text
  (xml.etree raises "cannot serialize 1 (type int)" when elem.text is the
  int 1).  Characters outside ASCII are written as character references,
  matching encoding="ascii" with xmlcharrefreplace.
* XMLWrapper.to_string embeds the formatted=False path of the source's
  to_string: ET.tostring (line 33) followed by stripping the XML
  declaration and its trailing newline (lines 36: the re.sub removes the
  declaration the tostring call added, and the [1:] removes the newline
  after it, so together they cancel the declaration exactly), then the
  optional URL encoding pass (lines 37-38).  The minidom pretty-printing
  branch (formatted=True) is not modelled; every property proved below
  concerns behaviour that is decided before that branch runs (ET.tostring
  escaping and failures) or is independent of it.
* Python str.replace with a one-character pattern is embedded as
  replaceChar; Python str.split(".") is embedded as pySplit '.'.
-/

/-- A Python value that the source assigns to an ET.Element text slot:
either a str or an int (the source assigns a bare int in
SelectionAnswer._add_min_selections and _add_max_selections). -/
inductive PyVal where
  | str (s : String)
  | int (n : Int)
deriving DecidableEq

/-- Python truthiness of a text slot value: the empty string and the int 0
are falsy, everything else is truthy. -/
def PyVal.truthy : PyVal → Bool
  | .str s => s ≠ ""
  | .int n => n ≠ 0

/-- Embedding of xml.etree.ElementTree.Element: a tag, an ordered attribute
mapping (Python dicts preserve insertion order), an optional text value and
an ordered list of child elements. -/
inductive Element where
  | mk (tag : String) (attrib : List (String × String)) (text : Option PyVal)
      (children : List Element)

/-- Tag of an element. -/
def Element.tag : Element → String
  | .mk t _ _ _ => t

/-- Attribute list of an element. -/
def Element.attrib : Element → List (String × String)
  | .mk _ a _ _ => a

/-- Text slot of an element. -/
def Element.text : Element → Option PyVal
  | .mk _ _ x _ => x

/-- Children of an element. -/
def Element.children : Element → List Element
  | .mk _ _ _ c => c

/-- Python str.replace(pattern, replacement) restricted to one-character
patterns, which is the only form the source uses: every occurrence of the
character is replaced. -/
def replaceChar (l : List Char) (c : Char) (rep : List Char) : List Char :=
  l.flatMap (fun a => if a = c then rep else [a])

/-- Python str.split(sep) for a one-character separator, the only form the
source uses: "".split(".") gives [""], and empty fragments are kept. -/
def pySplit (sep : Char) : List Char → List (List Char)
  | [] => [[]]
  | c :: rest =>
    match pySplit sep rest with
    | [] => [[]]
    | g :: gs => if c = sep then [] :: g :: gs else (c :: g) :: gs

/-- Python truthiness of an Optional[str]: None and the empty string are
falsy. -/
def truthyOptStr : Option String → Bool
  | none => false
  | some s => s ≠ ""

/-- Python truthiness of an Optional[int]: None and 0 are falsy. -/
def truthyOptInt : Option Int → Bool
  | none => false
  | some n => n ≠ 0

/-- ElementTree's _escape_cdata applied to a text slot: for a str it
replaces the characters &, <, > (in that order) by their entities; for an
int it raises the serialization TypeError that _raise_serialization_error
produces ("cannot serialize 1 (type int)" for the int 1). -/
def escape_cdata (v : PyVal) : Except String String :=
  match v with
  | .str s => .ok ⟨replaceChar (replaceChar (replaceChar s.data
      '&' "&amp;".data) '<' "&lt;".data) '>' "&gt;".data⟩
  | .int n => .error ("cannot serialize " ++ n.repr ++ " (type int)")

/-- ElementTree's _escape_attrib: replaces &, <, >, the double quote and
the whitespace characters CR, LF, TAB (in that order) by entities. -/
def escape_attrib (s : String) : String :=
  ⟨replaceChar (replaceChar (replaceChar (replaceChar (replaceChar (replaceChar
    (replaceChar s.data '&' "&amp;".data) '<' "&lt;".data) '>' "&gt;".data)
    '\"' "&quot;".data) '\r' "&#13;".data) '\n' "&#10;".data) '\t' "&#09;".data⟩

/-- Writing the serialized text with encoding="ascii" turns every
character outside ASCII into a decimal character reference
(errors="xmlcharrefreplace"). -/
def asciiRefEncode (s : String) : String :=
  ⟨s.data.flatMap (fun c =>
    if c.toNat ≥ 128 then ("&#" ++ Nat.repr c.toNat ++ ";").data else [c])⟩

mutual

/-- ElementTree's _serialize_xml on one element (no tail text is ever set
by the source): attributes in insertion order, a self-closing form when
the text slot is falsy and there are no children, otherwise the escaped
text followed by the serialized children. -/
def serializeElem : Element → Except String String
  | .mk tag attrib text children =>
    let attrs := String.join (attrib.map
      (fun p => " " ++ p.1 ++ "=\"" ++ escape_attrib p.2 ++ "\""))
    let hasText := (text.map PyVal.truthy).getD false
    if hasText || !children.isEmpty then
      match (if hasText then escape_cdata (text.getD (.str "")) else .ok "") with
      | .error e => .error e
      | .ok t =>
        match serializeList children with
        | .error e => .error e
        | .ok body => .ok ("<" ++ tag ++ attrs ++ ">" ++ t ++ body ++ "</" ++ tag ++ ">")
    else
      .ok ("<" ++ tag ++ attrs ++ " />")

/-- Serialization of a list of sibling elements, concatenated in order;
the first failure (non-string text slot) aborts the whole rendering. -/
def serializeList : List Element → Except String String
  | [] => .ok ""
  | e :: es =>
    match serializeElem e with
    | .error err => .error err
    | .ok s =>
      match serializeList es with
      | .error err => .error err
      | .ok r => .ok (s ++ r)

end

/-- State of the XMLWrapper base class: the ordered element list and the
ordered attribute dict.  Content, FreeTextAnswer and SelectionAnswer carry
no further state, so their instances are values of this structure. -/
structure XMLWrapper where
  _elements : List Element := []
  _attributes : List (String × String) := []

/-- XMLWrapper.compile_elements: builds the root element with the given
name (the source defaults the name to the Python class name; callers below
pass that default explicitly) carrying the wrapper's attributes, with the
accumulated elements appended as children. -/
def XMLWrapper.compile_elements (w : XMLWrapper) (root_name : String) : Element :=
  .mk root_name w._attributes none w._elements

/-- The fixed (character, code) table of XMLWrapper._encode_for_url, in
source order. -/
def urlEncoder : List (Char × String) :=
  [('$', "%24"), ('&', "%26"), ('+', "%2B"), (',', "%2C"), ('/', "%2F"),
   (':', "%3A"), (';', "%3B"), ('?', "%3F"), ('@', "%40")]

/-- XMLWrapper._encode_for_url: successive str.replace passes over the
whole text, one per table entry, in table order. -/
def XMLWrapper._encode_for_url (text : String) : String :=
  ⟨urlEncoder.foldl (fun t p => replaceChar t p.1 p.2.data) text.data⟩

/-- XMLWrapper.to_string with formatted=False: serialize with ET.tostring
(whose XML declaration is then removed together with its newline by the
re.sub and the [1:] of the source, leaving exactly the serialized root),
then apply the URL encoding pass when url_safe is set.  Serialization
fails (a Python TypeError) when some reachable text slot holds an int. -/
def XMLWrapper.to_string (w : XMLWrapper) (root_name : String)
    (url_safe : Bool) : Except String String :=
  match serializeElem (w.compile_elements root_name) with
  | .error e => .error e
  | .ok s =>
    let s := asciiRefEncode s
    .ok (if url_safe then XMLWrapper._encode_for_url s else s)

/-- Content(): a fresh wrapper with no elements and no attributes. -/
def Content.init : XMLWrapper := {}

/-- Content.add_title: appends a Title element holding the title text. -/
def Content.add_title (self : XMLWrapper) (title : String) : XMLWrapper :=
  { self with _elements := self._elements ++ [.mk "Title" [] (some (.str title)) []] }

/-- Content.add_text: appends a Text element holding the paragraph text. -/
def Content.add_text (self : XMLWrapper) (text : String) : XMLWrapper :=
  { self with _elements := self._elements ++ [.mk "Text" [] (some (.str text)) []] }

/-- Content.add_formatted_text: appends a FormattedContent element whose
text slot is the Python f-string "<![CDATA[" + text + "]]>" (the source
stores the CDATA wrapper as ordinary element text). -/
def Content.add_formatted_text (self : XMLWrapper) (text : String) : XMLWrapper :=
  { self with _elements := self._elements ++
      [.mk "FormattedContent" [] (some (.str ("<![CDATA[" ++ text ++ "]]>"))) []] }

/-- Content.add_list: appends a List element with one ListItem child per
item, in order. -/
def Content.add_list (self : XMLWrapper) (items : List String) : XMLWrapper :=
  { self with _elements := self._elements ++
      [.mk "List" [] none (items.map (fun i => .mk "ListItem" [] (some (.str i)) []))] }

/-- Content.add_image: appends a Binary element carrying a MimeType
(whose Type child is "image", and whose SubType child holds
url.split(".")[-1] and is present exactly when that last dot-separated
fragment is non-empty), a DataURL child holding the url and an AltText
child holding the alternative text. -/
def Content.add_image (self : XMLWrapper) (url : String) (alt_text : String) : XMLWrapper :=
  let ext : String := ⟨(pySplit '.' url.data).getLastD []⟩
  { self with _elements := self._elements ++
      [.mk "Binary" [] none
        ([.mk "MimeType" [] none
            ([.mk "Type" [] (some (.str "image")) []] ++
             (if ext ≠ "" then [.mk "SubType" [] (some (.str ext)) []] else []))] ++
         [.mk "DataURL" [] (some (.str url)) []] ++
         [.mk "AltText" [] (some (.str alt_text)) []])] }

/-- FreeTextAnswer._create_reg_exp: an AnswerFormatRegex element whose
regex attribute is the pattern and whose errorText attribute is present
exactly when error_text is truthy. -/
def FreeTextAnswer._create_reg_exp (reg_exp : String) (error_text : Option String) : Element :=
  .mk "AnswerFormatRegex"
    ([("regex", reg_exp)] ++
     (if truthyOptStr error_text then [("errorText", error_text.getD "")] else []))
    none []

/-- FreeTextAnswer._add_length_constraints: a Length element carrying a
minLength attribute when min_length is truthy (so neither for None nor for
0) and a maxLength attribute when max_length is truthy. -/
def FreeTextAnswer._add_length_constraints (min_length max_length : Option Int) : Element :=
  .mk "Length"
    ((if truthyOptInt min_length then [("minLength", (min_length.getD 0).repr)] else []) ++
     (if truthyOptInt max_length then [("maxLength", (max_length.getD 0).repr)] else []))
    none []

/-- FreeTextAnswer._create_is_numeric: an IsNumeric element carrying a
minValue attribute when min_val is truthy and a maxValue attribute when
max_val is truthy. -/
def FreeTextAnswer._create_is_numeric (min_val max_val : Option Int) : Element :=
  .mk "IsNumeric"
    ((if truthyOptInt min_val then [("minValue", (min_val.getD 0).repr)] else []) ++
     (if truthyOptInt max_val then [("maxValue", (max_val.getD 0).repr)] else []))
    none []

/-- FreeTextAnswer._add_constraints: the Constraints element, holding the
regex constraint (only when reg_exp is truthy and is_numeric is not set),
the Length constraint (only when one of the length bounds is truthy and
is_numeric is not set) and the IsNumeric constraint (only when is_numeric
is set), in that order. -/
def FreeTextAnswer._add_constraints (reg_exp error_text : Option String)
    (min_length max_length : Option Int) (is_numeric : Bool)
    (min_val max_val : Option Int) : Element :=
  .mk "Constraints" [] none
    ((if truthyOptStr reg_exp && !is_numeric
      then [FreeTextAnswer._create_reg_exp (reg_exp.getD "") error_text] else []) ++
     (if (truthyOptInt min_length || truthyOptInt max_length) && !is_numeric
      then [FreeTextAnswer._add_length_constraints min_length max_length] else []) ++
     (if is_numeric
      then [FreeTextAnswer._create_is_numeric min_val max_val] else []))

/-- FreeTextAnswer.__init__: appends the Constraints element when at least
one of reg_exp, min_length, max_length, is_numeric is truthy (Python's
any([...]) over those four arguments), then the DefaultText element when
default_text is truthy, then the NumberOfLinesSuggestion element when
lines_in_box is truthy. -/
def FreeTextAnswer.init (default_text : Option String) (lines_in_box : Option Int)
    (reg_exp error_text : Option String) (min_length max_length : Option Int)
    (is_numeric : Bool) (min_val max_val : Option Int) : XMLWrapper :=
  { _elements :=
      (if truthyOptStr reg_exp || truthyOptInt min_length || truthyOptInt max_length
          || is_numeric
       then [FreeTextAnswer._add_constraints reg_exp error_text min_length max_length
              is_numeric min_val max_val]
       else []) ++
      (if truthyOptStr default_text
       then [.mk "DefaultText" [] (some (.str (default_text.getD ""))) []] else []) ++
      (if truthyOptInt lines_in_box
       then [.mk "NumberOfLinesSuggestion" [] (some (.str (lines_in_box.getD 0).repr)) []]
       else []),
    _attributes := [] }

/-- SelectionAnswer.__init__: appends MinSelectionCount when min_selections
is truthy, MaxSelectionCount when max_selections is truthy, StyleSuggestion
when answer_style is truthy, then always the Selections element with one
Selection child per (identifier, text) pair in insertion order.  The
source assigns the bare int to the text slot of MinSelectionCount and
MaxSelectionCount (element.text = number, without str()), which is kept
here as a PyVal.int. -/
def SelectionAnswer.init (selections : List (String × String))
    (answer_style : Option String) (min_selections max_selections : Option Int) :
    XMLWrapper :=
  { _elements :=
      (if truthyOptInt min_selections
       then [.mk "MinSelectionCount" [] (some (.int (min_selections.getD 0))) []] else []) ++
      (if truthyOptInt max_selections
       then [.mk "MaxSelectionCount" [] (some (.int (max_selections.getD 0))) []] else []) ++
      (if truthyOptStr answer_style
       then [.mk "StyleSuggestion" [] (some (.str (answer_style.getD ""))) []] else []) ++
      [.mk "Selections" [] none
        (selections.map (fun p => Element.mk "Selection" [] none
          [.mk "SelectionIdentifier" [] (some (.str p.1)) [],
           .mk "Text" [] (some (.str p.2)) []]))],
    _attributes := [] }

/-- Initial value of the Question._ID class variable. -/
def Question.initialID : Nat := 1

/-- State of one Question instance: the identifier chosen at construction
and the accumulated elements (Question carries no attributes). -/
structure Question where
  _question_id : String
  _elements : List Element

/-- Arguments of one Question construction.  The answer wrapper is paired
with its Python class name, which the source uses as the root tag when
compiling the answer (answer.compile_elements() with no name). -/
structure QuestionArgs where
  content : XMLWrapper
  answer : XMLWrapper
  answerRootName : String
  name : Option String
  is_required : Bool
  question_id : Option String

/-- Question.__init__ with the class counter threaded explicitly: the
identifier is the caller's question_id when that is truthy, otherwise
"QuestionID_" followed by the current counter value; _add_id always
increments the class counter, whether or not the caller supplied an id.
The element order is QuestionIdentifier, optional DisplayName, IsRequired
("true"/"false"), the content compiled under QuestionContent, and the
answer compiled under its class name inside AnswerSpecification. -/
def Question.init (args : QuestionArgs) (counter : Nat) : Question × Nat :=
  let qid := if truthyOptStr args.question_id then args.question_id.getD ""
             else "QuestionID_" ++ Nat.repr counter
  ({ _question_id := qid,
     _elements :=
       [.mk "QuestionIdentifier" [] (some (.str qid)) []] ++
       (if truthyOptStr args.name
        then [.mk "DisplayName" [] (some (.str (args.name.getD ""))) []] else []) ++
       [.mk "IsRequired" [] (some (.str (if args.is_required then "true" else "false"))) []] ++
       [args.content.compile_elements "QuestionContent"] ++
       [.mk "AnswerSpecification" [] none
          [args.answer.compile_elements args.answerRootName]] },
   counter + 1)

/-- A sequence of Question constructions in one process, threading the
shared class counter through every construction in order; returns the
constructed Questions and the final counter value. -/
def Question.constructAll (counter : Nat) : List QuestionArgs → List Question × Nat
  | [] => ([], counter)
  | args :: rest =>
    let qc := Question.init args counter
    let rec_result := Question.constructAll qc.2 rest
    (qc.1 :: rec_result.1, rec_result.2)

/-- Placeholder construction arguments used as a getD default. -/
def dummyArgs : QuestionArgs :=
  { content := {}, answer := {}, answerRootName := "FreeTextAnswer",
    name := none, is_required := false, question_id := none }

/-- Placeholder Question used as a getD default. -/
def dummyQuestion : Question :=
  { _question_id := "", _elements := [] }

/-- State of an AnswerKey: the inherited wrapper state plus the
_is_score_added flag guarding add_max_score. -/
structure AnswerKey where
  _elements : List Element
  _attributes : List (String × String)
  _is_score_added : Bool

/-- AnswerKey(): the fixed schema namespace attribute is set and the score
flag starts unset. -/
def AnswerKey.init : AnswerKey :=
  { _elements := [],
    _attributes := [("xmlns",
      "http://mechanicalturk.amazonaws.com/AWSMechanicalTurkDataSchemas/2005-10-01/AnswerKey.xsd")],
    _is_score_added := false }

/-- AnswerKey.add_max_score: the assert fires (an AssertionError with the
message below, modelled as the Option String component) when the score was
already added, leaving the state untouched because the assert is the first
statement of the method; otherwise the QualificationValueMapping element
is appended and the flag is set. -/
def AnswerKey.add_max_score (self : AnswerKey) (score : Int) : AnswerKey × Option String :=
  if self._is_score_added then
    (self, some "Score was already added to the answers")
  else
    ({ self with
        _elements := self._elements ++
          [.mk "QualificationValueMapping" [] none
            [.mk "PercentageMapping" [] none
              [.mk "MaximumSummedScore" [] (some (.str score.repr)) []]]],
        _is_score_added := true }, none)

/-- Rendering of an AnswerKey goes through the inherited to_string with
the class name as default root. -/
def AnswerKey.to_string (self : AnswerKey) (url_safe : Bool) : Except String String :=
  XMLWrapper.to_string { _elements := self._elements, _attributes := self._attributes }
    "AnswerKey" url_safe

/-- The five-field credential record of config.AmazonIAMUser. -/
structure AmazonIAMUser where
  user_name : String := ""
  password : String := ""
  access_key_id : String := ""
  secret_access_key : String := ""
  console_login_link : String := ""

/-- Python dict indexing credentials[key]: the value when the key is
present, a KeyError otherwise. -/
def dictGet (credentials : List (String × String)) (key : String) : Except String String :=
  match credentials.lookup key with
  | some v => .ok v
  | none => .error ("KeyError: " ++ key)

/-- AmazonIAMUser._update_fields: reads the five fixed keys from the
credential mapping. -/
def AmazonIAMUser._update_fields (self : AmazonIAMUser)
    (credentials : List (String × String)) : Except String AmazonIAMUser := do
  let user_name ← dictGet credentials "User name"
  let password ← dictGet credentials "Password"
  let access_key_id ← dictGet credentials "Access key ID"
  let secret_access_key ← dictGet credentials "Secret access key"
  let console_login_link ← dictGet credentials "Console login link"
  return { self with
    user_name := user_name
    password := password
    access_key_id := access_key_id
    secret_access_key := secret_access_key
    console_login_link := console_login_link }

/-- AmazonIAMUser.from_file: dispatches on file_path.split(".")[-1].  The
file system is abstracted by the two loader oracles (the source's
_load_csv and _load_json, which are the only code that opens the file);
with any other extension the method raises before either loader runs, so
the result is the error independent of the oracles. -/
def AmazonIAMUser.from_file (self : AmazonIAMUser) (file_path : String)
    (load_csv load_json : String → List (String × String)) :
    Except String AmazonIAMUser :=
  let extension : String := ⟨(pySplit '.' file_path.data).getLastD []⟩
  if extension = "csv" then self._update_fields (load_csv file_path)
  else if extension = "json" then self._update_fields (load_json file_path)
  else .error "Unknown file extension"

mutual

/-- Whether an element or one of its descendants carries the given tag. -/
def Element.containsTag : Element → String → Bool
  | .mk tag _ _ children, t => tag == t || containsTagList children t

/-- Whether some element of the list (or a descendant) carries the tag. -/
def containsTagList : List Element → String → Bool
  | [], _ => false
  | e :: es, t => Element.containsTag e t || containsTagList es t

end

/-- Numeric value of a decimal digit character. -/
def digitVal (c : Char) : Nat := c.toNat - 48

/-- Reads a decimal digit string left to right, accumulating its value. -/
def parseAux (acc : Nat) : List Char → Nat
  | [] => acc
  | c :: cs => parseAux (acc * 10 + digitVal c) cs

theorem parseAux_append (acc : Nat) (xs ys : List Char) :
    parseAux acc (xs ++ ys) = parseAux (parseAux acc xs) ys := by
  induction xs generalizing acc with
  | nil => rfl
  | cons c cs ih =>
    rw [List.cons_append]
    show parseAux (acc * 10 + digitVal c) (cs ++ ys) = _
    rw [ih]
    rfl

theorem toDigitsCore_append (fuel n : Nat) (ds : List Char) :
    Nat.toDigitsCore 10 fuel n ds = Nat.toDigitsCore 10 fuel n [] ++ ds := by
  induction fuel generalizing n ds with
  | zero => simp [Nat.toDigitsCore]
  | succ fuel ih =>
    simp only [Nat.toDigitsCore]
    by_cases h : n / 10 = 0
    · simp [h]
    · simp only [h, if_false]
      rw [ih (n / 10) (Nat.digitChar (n % 10) :: ds),
          ih (n / 10) [Nat.digitChar (n % 10)]]
      simp

theorem digitVal_digitChar (d : Nat) (h : d < 10) : digitVal (Nat.digitChar d) = d := by
  interval_cases d <;> decide

theorem parseAux_toDigitsCore (fuel n acc : Nat) (h : n < fuel) :
    parseAux acc (Nat.toDigitsCore 10 fuel n []) =
      acc * 10 ^ (Nat.toDigitsCore 10 fuel n []).length + n := by
  induction fuel generalizing n acc with
  | zero => omega
  | succ fuel ih =>
    by_cases hdiv : n / 10 = 0
    · have hn : n < 10 := by omega
      simp only [Nat.toDigitsCore, hdiv, if_true]
      have hmod : n % 10 = n := Nat.mod_eq_of_lt hn
      have hl : parseAux acc [Nat.digitChar (n % 10)] =
          acc * 10 + digitVal (Nat.digitChar (n % 10)) := rfl
      rw [hl, hmod, digitVal_digitChar n hn]
      simp
    · have hge : 10 ≤ n := by
        by_contra hlt
        exact hdiv (Nat.div_eq_of_lt (by omega))
      have hlt : n / 10 < fuel := by
        have h1 : n / 10 < n := Nat.div_lt_self (by omega) (by omega)
        omega
      simp only [Nat.toDigitsCore, hdiv, if_false]
      rw [toDigitsCore_append fuel (n / 10) [Nat.digitChar (n % 10)]]
      rw [parseAux_append]
      rw [ih (n / 10) acc hlt]
      have hd : digitVal (Nat.digitChar (n % 10)) = n % 10 :=
        digitVal_digitChar (n % 10) (Nat.mod_lt n (by omega))
      have hp : ∀ (m : Nat) (d : Char), parseAux m [d] = m * 10 + digitVal d :=
        fun m d => rfl
      rw [hp, hd]
      rw [List.length_append]
      simp only [List.length_cons, List.length_nil, Nat.zero_add]
      rw [pow_succ]
      have key : n / 10 * 10 + n % 10 = n := by omega
      calc (acc * 10 ^ (Nat.toDigitsCore 10 fuel (n / 10) []).length + n / 10) * 10 + n % 10
          = acc * (10 ^ (Nat.toDigitsCore 10 fuel (n / 10) []).length * 10) +
            (n / 10 * 10 + n % 10) := by ring
        _ = acc * (10 ^ (Nat.toDigitsCore 10 fuel (n / 10) []).length * 10) + n := by rw [key]

theorem parseAux_repr (n : Nat) : parseAux 0 (Nat.repr n).data = n := by
  have h : (Nat.repr n).data = Nat.toDigitsCore 10 (n + 1) n [] := rfl
  rw [h, parseAux_toDigitsCore (n + 1) n 0 (Nat.lt_succ_self n)]
  simp

theorem nat_repr_injective {m n : Nat} (h : Nat.repr m = Nat.repr n) : m = n := by
  have := congrArg (fun s => parseAux 0 s.data) h
  simpa [parseAux_repr] using this

/-! Helper lemmas shared by several claims. -/

set_option maxRecDepth 8000

/-- Tag search distributes over list concatenation. -/
theorem containsTagList_append (xs ys : List Element) (t : String) :
    containsTagList (xs ++ ys) t = (containsTagList xs t || containsTagList ys t) := by
  induction xs with
  | nil => simp [containsTagList]
  | cons e es ih =>
    rw [List.cons_append]
    show (Element.containsTag e t || containsTagList (es ++ ys) t) = _
    rw [ih]
    show _ = ((Element.containsTag e t || containsTagList es t) || containsTagList ys t)
    rw [Bool.or_assoc]

/-- Tag search on a leaf element just compares the tag. -/
theorem containsTag_leaf (tag : String) (a : List (String × String))
    (x : Option PyVal) (t : String) :
    Element.containsTag (.mk tag a x []) t = (tag == t) := by
  show (tag == t || containsTagList [] t) = _
  rw [show containsTagList [] t = false from rfl, Bool.or_false]

/-- Tag search over an optional singleton produced by a truthiness guard. -/
theorem containsTagList_ifSingle (b : Bool) (e : Element) (t : String) :
    containsTagList (if b then [e] else []) t = (b && Element.containsTag e t) := by
  cases b with
  | false => rfl
  | true =>
    show (Element.containsTag e t || containsTagList [] t) = _
    rw [show containsTagList [] t = false from rfl, Bool.or_false, Bool.true_and]

/-- One construction step of constructAll. -/
theorem constructAll_cons (c : Nat) (a : QuestionArgs) (rest : List QuestionArgs) :
    Question.constructAll c (a :: rest)
      = ((Question.init a c).1 :: (Question.constructAll (c + 1) rest).1,
         (Question.constructAll (c + 1) rest).2) := by
  show ((Question.init a c).1 :: (Question.constructAll (Question.init a c).2 rest).1,
        (Question.constructAll (Question.init a c).2 rest).2) = _
  rfl

/-- The shared class counter advances by exactly one per construction. -/
theorem constructAll_counter (argss : List QuestionArgs) (c : Nat) :
    (Question.constructAll c argss).2 = c + argss.length := by
  induction argss generalizing c with
  | nil => simp [Question.constructAll]
  | cons a rest ih =>
    rw [constructAll_cons]
    show (Question.constructAll (c + 1) rest).2 = _
    rw [ih (c + 1)]
    simp [List.length_cons]
    omega

/-- As many Questions come out as constructions went in. -/
theorem constructAll_length (argss : List QuestionArgs) (c : Nat) :
    (Question.constructAll c argss).1.length = argss.length := by
  induction argss generalizing c with
  | nil => rfl
  | cons a rest ih =>
    rw [constructAll_cons]
    simp [List.length_cons, ih (c + 1)]

/-- A construction whose question_id argument is falsy is assigned the
identifier QuestionID_ followed by the counter value at its position. -/
theorem constructAll_auto_id (argss : List QuestionArgs) (c i : Nat)
    (hi : i < argss.length)
    (hauto : truthyOptStr ((argss.getD i dummyArgs).question_id) = false) :
    ((Question.constructAll c argss).1.getD i dummyQuestion)._question_id
      = "QuestionID_" ++ Nat.repr (c + i) := by
  induction argss generalizing c i with
  | nil => simp at hi
  | cons a rest ih =>
    rw [constructAll_cons]
    cases i with
    | zero =>
      simp only [List.getD_cons_zero] at hauto ⊢
      show (Question.init a c).1._question_id = _
      simp only [Question.init, hauto, Bool.false_eq_true, if_false]
      rw [show c + 0 = c from rfl]
    | succ i =>
      simp only [List.getD_cons_succ] at hauto ⊢
      rw [ih (c + 1) i (by simpa using hi) hauto]
      have : c + 1 + i = c + (i + 1) := by omega
      rw [this]

/-- Modelled from the spec's wording for comparison with the source's
_encode_for_url: the per-character substitution table — exactly the nine
reserved characters receive their percent codes, every other character
(including <, > and %) passes through unchanged. -/
def urlCharMap (c : Char) : List Char :=
  if c = '$' then "%24".data else if c = '&' then "%26".data
  else if c = '+' then "%2B".data else if c = ',' then "%2C".data
  else if c = '/' then "%2F".data else if c = ':' then "%3A".data
  else if c = ';' then "%3B".data else if c = '?' then "%3F".data
  else if c = '@' then "%40".data else [c]

/-- Modelled from the spec's wording: a single substitution pass over the
whole text, replacing each character independently by its urlCharMap
image. -/
def urlSubstPass (text : String) : String :=
  ⟨text.data.flatMap urlCharMap⟩

/-- The fold of single-character replace passes distributes over list
concatenation. -/
theorem urlFold_append (pairs : List (Char × String)) (x y : List Char) :
    pairs.foldl (fun t p => replaceChar t p.1 p.2.data) (x ++ y)
      = pairs.foldl (fun t p => replaceChar t p.1 p.2.data) x
        ++ pairs.foldl (fun t p => replaceChar t p.1 p.2.data) y := by
  induction pairs generalizing x y with
  | nil => rfl
  | cons p ps ih =>
    rw [List.foldl_cons, List.foldl_cons]
    rw [show replaceChar (x ++ y) p.1 p.2.data
          = replaceChar x p.1 p.2.data ++ replaceChar y p.1 p.2.data from by
        simp [replaceChar]]
    exact ih _ _

/-- On a single character the nine successive replace passes agree with
the substitution table. -/
theorem urlFold_single (a : Char) :
    urlEncoder.foldl (fun t p => replaceChar t p.1 p.2.data) [a] = urlCharMap a := by
  by_cases h1 : a = '$'
  · subst h1; decide
  by_cases h2 : a = '&'
  · subst h2; decide
  by_cases h3 : a = '+'
  · subst h3; decide
  by_cases h4 : a = ','
  · subst h4; decide
  by_cases h5 : a = '/'
  · subst h5; decide
  by_cases h6 : a = ':'
  · subst h6; decide
  by_cases h7 : a = ';'
  · subst h7; decide
  by_cases h8 : a = '?'
  · subst h8; decide
  by_cases h9 : a = '@'
  · subst h9; decide
  simp only [urlEncoder, urlCharMap, List.foldl_cons, List.foldl_nil,
    replaceChar, List.flatMap_cons, List.flatMap_nil,
    if_neg h1, if_neg h2, if_neg h3, if_neg h4, if_neg h5, if_neg h6,
    if_neg h7, if_neg h8, if_neg h9, List.append_nil]

/-- The source's sequential replace passes compute exactly the single
substitution pass, because no percent code contains a character that a
later pass replaces. -/
theorem encode_for_url_eq_subst (text : String) :
    XMLWrapper._encode_for_url text = urlSubstPass text := by
  have key : ∀ l : List Char,
      urlEncoder.foldl (fun t p => replaceChar t p.1 p.2.data) l
        = l.flatMap urlCharMap := by
    intro l
    induction l with
    | nil => rfl
    | cons a l ih =>
      rw [show (a :: l) = [a] ++ l from rfl, urlFold_append, ih,
          urlFold_single, List.flatMap_append]
      rw [show ([a] : List Char).flatMap urlCharMap = urlCharMap a ++ [] from rfl,
          List.append_nil]
  show (⟨urlEncoder.foldl (fun t p => replaceChar t p.1 p.2.data) text.data⟩ : String) = _
  rw [key]
  rfl

/-! Claim theorems. -/

/-- C1: the claim asserts that rendering after add_formatted_text emits
the literal, unescaped wrapper <![CDATA[...]]> around the markup.  The
code stores the CDATA wrapper as ordinary element text, and ET.tostring
escapes it: the rendered output carries the entity-escaped form and the
literal CDATA opener appears nowhere in it.  This theorem evaluates the
rendering at the failing input "<b>hi</b>". -/
theorem C1_formatted_text_rendered_escaped :
    XMLWrapper.to_string (Content.add_formatted_text Content.init "<b>hi</b>") "Content" false
      = .ok "<Content><FormattedContent>&lt;![CDATA[&lt;b&gt;hi&lt;/b&gt;]]&gt;</FormattedContent></Content>"
    ∧ ¬ List.IsInfix "<![CDATA[".data
        "<Content><FormattedContent>&lt;![CDATA[&lt;b&gt;hi&lt;/b&gt;]]&gt;</FormattedContent></Content>".data :=
  ⟨rfl, by decide⟩

/-- C2: with is_numeric set, the rendered element tree of a
FreeTextAnswer contains no Length node and no AnswerFormatRegex node,
whatever the other arguments are, and the Constraints node holds exactly
the IsNumeric constraint built from min_val/max_val. -/
theorem C2_is_numeric_excludes_length_and_regex
    (dt : Option String) (lb : Option Int) (re et : Option String)
    (mnl mxl mnv mxv : Option Int) :
    containsTagList (FreeTextAnswer.init dt lb re et mnl mxl true mnv mxv)._elements
      "Length" = false
    ∧ containsTagList (FreeTextAnswer.init dt lb re et mnl mxl true mnv mxv)._elements
      "AnswerFormatRegex" = false
    ∧ (FreeTextAnswer.init dt lb re et mnl mxl true mnv mxv)._elements.head?
      = some (.mk "Constraints" [] none [FreeTextAnswer._create_is_numeric mnv mxv]) := by
  have helems : (FreeTextAnswer.init dt lb re et mnl mxl true mnv mxv)._elements
      = [Element.mk "Constraints" [] none [FreeTextAnswer._create_is_numeric mnv mxv]] ++
        (if truthyOptStr dt then [.mk "DefaultText" [] (some (.str (dt.getD ""))) []] else []) ++
        (if truthyOptInt lb
         then [.mk "NumberOfLinesSuggestion" [] (some (.str (lb.getD 0).repr)) []] else []) := by
    simp [FreeTextAnswer.init, FreeTextAnswer._add_constraints]
  have hnum : ∀ t : String, Element.containsTag
      (.mk "Constraints" [] none [FreeTextAnswer._create_is_numeric mnv mxv]) t
      = (("Constraints" == t) || ("IsNumeric" == t)) := by
    intro t
    show (("Constraints" == t) ||
      (Element.containsTag (FreeTextAnswer._create_is_numeric mnv mxv) t || containsTagList [] t)) = _
    rw [show FreeTextAnswer._create_is_numeric mnv mxv
          = .mk "IsNumeric"
              ((if truthyOptInt mnv then [("minValue", (mnv.getD 0).repr)] else []) ++
               (if truthyOptInt mxv then [("maxValue", (mxv.getD 0).repr)] else [])) none []
        from rfl]
    rw [containsTag_leaf]
    rw [show containsTagList ([] : List Element) t = false from rfl, Bool.or_false]
  refine ⟨?_, ?_, ?_⟩
  · rw [helems, containsTagList_append, containsTagList_append]
    show ((Element.containsTag (.mk "Constraints" [] none
        [FreeTextAnswer._create_is_numeric mnv mxv]) "Length" || false) || _ || _) = false
    rw [hnum, containsTagList_ifSingle, containsTagList_ifSingle,
        containsTag_leaf, containsTag_leaf]
    simp
  · rw [helems, containsTagList_append, containsTagList_append]
    show ((Element.containsTag (.mk "Constraints" [] none
        [FreeTextAnswer._create_is_numeric mnv mxv]) "AnswerFormatRegex" || false) || _ || _) = false
    rw [hnum, containsTagList_ifSingle, containsTagList_ifSingle,
        containsTag_leaf, containsTag_leaf]
    simp
  · rw [helems]
    rfl

/-- C3: once add_max_score has succeeded on an AnswerKey, a second call
fails with the usage error and mutates nothing: the returned state is the
input state, so the element list and the rendered output are unchanged. -/
theorem C3_add_max_score_second_call_fails
    (k k1 : AnswerKey) (s1 s2 : Int)
    (h : AnswerKey.add_max_score k s1 = (k1, none)) :
    AnswerKey.add_max_score k1 s2 = (k1, some "Score was already added to the answers")
    ∧ (AnswerKey.add_max_score k1 s2).1._elements = k1._elements
    ∧ ∀ us, AnswerKey.to_string (AnswerKey.add_max_score k1 s2).1 us
        = AnswerKey.to_string k1 us := by
  have hflag : k1._is_score_added = true := by
    by_cases hk : k._is_score_added
    · rw [AnswerKey.add_max_score, if_pos hk] at h
      exact absurd (congrArg Prod.snd h) (by simp)
    · rw [AnswerKey.add_max_score, if_neg hk] at h
      have := congrArg Prod.fst h
      simp only at this
      rw [← this]
  have hmain : AnswerKey.add_max_score k1 s2
      = (k1, some "Score was already added to the answers") := by
    rw [AnswerKey.add_max_score, if_pos hflag]
  exact ⟨hmain, by rw [hmain], fun us => by rw [hmain]⟩

/-- Witness for C3 at a concrete AnswerKey: set score 7 on a fresh key,
then a second call with score 9 fails and leaves the state unchanged. -/
theorem C3_add_max_score_second_call_fails_witness :
    AnswerKey.add_max_score (AnswerKey.add_max_score AnswerKey.init 7).1 9
      = ((AnswerKey.add_max_score AnswerKey.init 7).1,
         some "Score was already added to the answers")
    ∧ (AnswerKey.add_max_score (AnswerKey.add_max_score AnswerKey.init 7).1 9).1._elements
      = (AnswerKey.add_max_score AnswerKey.init 7).1._elements :=
  have h := C3_add_max_score_second_call_fails AnswerKey.init
    (AnswerKey.add_max_score AnswerKey.init 7).1 7 9 rfl
  ⟨h.1, h.2.1⟩

/-- C4: the source's URL-safe encoding equals the spec's single
substitution pass replacing exactly the nine reserved characters (the
table shows ampersand mapping to %26, the question mark to %3F, and <, >
and the percent sign passing through), and to_string applies it to the
whole rendered text as the final pass. -/
theorem C4_url_encoding_substitution_pass :
    (∀ text, XMLWrapper._encode_for_url text = urlSubstPass text)
    ∧ (∀ (w : XMLWrapper) (root_name : String),
        XMLWrapper.to_string w root_name true
          = Except.map XMLWrapper._encode_for_url (XMLWrapper.to_string w root_name false))
    ∧ urlCharMap '&' = "%26".data ∧ urlCharMap '?' = "%3F".data
    ∧ urlCharMap '<' = ['<'] ∧ urlCharMap '>' = ['>'] ∧ urlCharMap '%' = ['%'] := by
  refine ⟨encode_for_url_eq_subst, ?_, by decide, by decide, by decide, by decide, by decide⟩
  intro w root_name
  rw [XMLWrapper.to_string, XMLWrapper.to_string]
  cases serializeElem (w.compile_elements root_name) with
  | error e => rfl
  | ok s => rfl

/-- Witness for C4 at a concrete fragment: the spec's own example text,
with ampersand and question mark replaced and angle brackets kept (the
slash and semicolon of the fragment are among the nine and are replaced
too). -/
theorem C4_url_encoding_substitution_pass_witness :
    XMLWrapper._encode_for_url "<b>&amp;</b>?" = urlSubstPass "<b>&amp;</b>?"
    ∧ XMLWrapper._encode_for_url "<b>&amp;</b>?" = "<b>%26amp%3B<%2Fb>%3F" :=
  ⟨C4_url_encoding_substitution_pass.1 "<b>&amp;</b>?", by decide⟩

/-- C5 counterexample: the URL "photo" contains no dot, hence no file
extension, yet add_image emits a SubType node — whose text is the whole
URL — instead of omitting it as the claim requires. -/
theorem C5_no_extension_still_emits_subtype :
    ("photo".data.contains '.') = false
    ∧ (Content.add_image Content.init "photo" "pic")._elements
      = [.mk "Binary" [] none
          [.mk "MimeType" [] none
            [.mk "Type" [] (some (.str "image")) [],
             .mk "SubType" [] (some (.str "photo")) []],
           .mk "DataURL" [] (some (.str "photo")) [],
           .mk "AltText" [] (some (.str "pic")) []]] :=
  ⟨by decide, rfl⟩

/-- C5 amended: the Binary structure always carries the MimeType Type
node ("image"), the DataURL node and the AltText node; the SubType node
is omitted exactly when the last dot-separated fragment of the URL is
empty (the URL is empty or ends in a dot), and otherwise its text is that
last fragment — which is the whole URL when the URL contains no dot. -/
theorem C5_add_image_structure (self : XMLWrapper) (url alt_text : String) :
    ∃ sub : List Element,
      (Content.add_image self url alt_text)._elements
        = self._elements ++
          [.mk "Binary" [] none
            ([.mk "MimeType" [] none ([.mk "Type" [] (some (.str "image")) []] ++ sub)] ++
             [.mk "DataURL" [] (some (.str url)) []] ++
             [.mk "AltText" [] (some (.str alt_text)) []])]
      ∧ (sub = [] ↔ (⟨(pySplit '.' url.data).getLastD []⟩ : String) = "")
      ∧ ∀ e ∈ sub,
          e = .mk "SubType" [] (some (.str ⟨(pySplit '.' url.data).getLastD []⟩)) [] := by
  by_cases h : (⟨(pySplit '.' url.data).getLastD []⟩ : String) = ""
  · refine ⟨[], ?_, ⟨fun _ => h, fun _ => rfl⟩, by simp⟩
    rw [Content.add_image]
    simp only [h, ne_eq, not_true_eq_false, if_false, List.append_nil]
  · refine ⟨[.mk "SubType" [] (some (.str ⟨(pySplit '.' url.data).getLastD []⟩)) []],
      ?_, ⟨fun hc => (List.cons_ne_nil _ _ hc).elim, fun hc => absurd hc h⟩, by simp⟩
    rw [Content.add_image]
    simp only [ne_eq, h, not_false_eq_true, if_true]

/-- Witness for C5 amended at a concrete URL with an extension. -/
theorem C5_add_image_structure_witness :
    ∃ sub : List Element,
      (Content.add_image Content.init "a.png" "x")._elements
        = Content.init._elements ++
          [.mk "Binary" [] none
            ([.mk "MimeType" [] none ([.mk "Type" [] (some (.str "image")) []] ++ sub)] ++
             [.mk "DataURL" [] (some (.str "a.png")) []] ++
             [.mk "AltText" [] (some (.str "x")) []])]
      ∧ (sub = [] ↔ (⟨(pySplit '.' "a.png".data).getLastD []⟩ : String) = "")
      ∧ ∀ e ∈ sub,
          e = .mk "SubType" [] (some (.str ⟨(pySplit '.' "a.png".data).getLastD []⟩)) [] :=
  C5_add_image_structure Content.init "a.png" "x"

/-- C6: with the class counter at its initial value 1, the identifier
auto-assigned to the construction at position i is QuestionID_(1+i), so
over any one process the auto-assigned numbers start at 1, grow strictly
with construction order and never repeat, whatever documents the
questions end up in. -/
theorem C6_auto_ids_strictly_increasing
    (argss : List QuestionArgs) (i j : Nat)
    (hi : i < argss.length) (hj : j < argss.length) (hij : i < j)
    (hai : truthyOptStr ((argss.getD i dummyArgs).question_id) = false)
    (haj : truthyOptStr ((argss.getD j dummyArgs).question_id) = false) :
    ((Question.constructAll Question.initialID argss).1.getD i dummyQuestion)._question_id
      = "QuestionID_" ++ Nat.repr (1 + i)
    ∧ ((Question.constructAll Question.initialID argss).1.getD j dummyQuestion)._question_id
      = "QuestionID_" ++ Nat.repr (1 + j)
    ∧ 1 + i < 1 + j :=
  ⟨constructAll_auto_id argss Question.initialID i hi hai,
   constructAll_auto_id argss Question.initialID j hj haj,
   by omega⟩

/-- Witness for C6: two auto-id constructions receive QuestionID_1 and
QuestionID_2. -/
theorem C6_auto_ids_strictly_increasing_witness :
    ((Question.constructAll Question.initialID [dummyArgs, dummyArgs]).1.getD 0
        dummyQuestion)._question_id = "QuestionID_" ++ Nat.repr 1
    ∧ ((Question.constructAll Question.initialID [dummyArgs, dummyArgs]).1.getD 1
        dummyQuestion)._question_id = "QuestionID_" ++ Nat.repr 2
    ∧ 1 + 0 < 1 + 1 :=
  C6_auto_ids_strictly_increasing [dummyArgs, dummyArgs] 0 1
    (by decide) (by decide) (by decide) (by decide) (by decide)

/-- C9: every construction advances the shared counter by exactly one,
also when the caller supplies an explicit question_id; an auto-assigned
identifier always carries the counter value at its position, so auto ids
skip the values consumed by explicit-id constructions but two
auto-assigned identifiers never coincide. -/
theorem C9_counter_advances_once_per_construction
    (argss : List QuestionArgs) (c i j : Nat)
    (hi : i < argss.length) (hj : j < argss.length) (hne : i ≠ j)
    (hai : truthyOptStr ((argss.getD i dummyArgs).question_id) = false)
    (haj : truthyOptStr ((argss.getD j dummyArgs).question_id) = false) :
    (Question.constructAll c argss).2 = c + argss.length
    ∧ ((Question.constructAll c argss).1.getD i dummyQuestion)._question_id
      = "QuestionID_" ++ Nat.repr (c + i)
    ∧ ((Question.constructAll c argss).1.getD i dummyQuestion)._question_id
      ≠ ((Question.constructAll c argss).1.getD j dummyQuestion)._question_id := by
  have hid_i := constructAll_auto_id argss c i hi hai
  have hid_j := constructAll_auto_id argss c j hj haj
  refine ⟨constructAll_counter argss c, hid_i, ?_⟩
  rw [hid_i, hid_j]
  intro hcontra
  have hdata := congrArg (fun s => s.data.drop ("QuestionID_".data.length)) hcontra
  simp only [String.data_append, List.drop_left] at hdata
  have := congrArg (parseAux 0) hdata
  rw [parseAux_repr, parseAux_repr] at this
  omega

/-- Witness for C9: two auto constructions starting from counter 5 end at
counter 7 and receive the distinct ids QuestionID_5 and QuestionID_6. -/
theorem C9_counter_advances_once_per_construction_witness :
    (Question.constructAll 5 [dummyArgs, dummyArgs]).2 = 5 + 2
    ∧ ((Question.constructAll 5 [dummyArgs, dummyArgs]).1.getD 0 dummyQuestion)._question_id
      = "QuestionID_" ++ Nat.repr (5 + 0)
    ∧ ((Question.constructAll 5 [dummyArgs, dummyArgs]).1.getD 0 dummyQuestion)._question_id
      ≠ ((Question.constructAll 5 [dummyArgs, dummyArgs]).1.getD 1 dummyQuestion)._question_id :=
  C9_counter_advances_once_per_construction [dummyArgs, dummyArgs] 5 0 1
    (by decide) (by decide) (by decide) (by decide) (by decide)

/-- C7: the claim asserts that rendering the two-option SelectionAnswer
with min_selections=1 and max_selections=1 succeeds with
MinSelectionCount, MaxSelectionCount and the two-entry Selections list.
The element list does have that shape, but the source stores the bare int
1 in the MinSelectionCount text slot (no str() conversion), so
ET.tostring raises TypeError: cannot serialize 1 (type int) and rendering
fails instead of succeeding. -/
theorem C7_selection_answer_rendering_raises :
    XMLWrapper.to_string
      (SelectionAnswer.init [("a", "Apple"), ("b", "Banana")] none (some 1) (some 1))
      "SelectionAnswer" false
      = .error "cannot serialize 1 (type int)"
    ∧ (SelectionAnswer.init [("a", "Apple"), ("b", "Banana")] none (some 1) (some 1))._elements.map
        Element.tag
      = ["MinSelectionCount", "MaxSelectionCount", "Selections"]
    ∧ ((SelectionAnswer.init [("a", "Apple"), ("b", "Banana")] none (some 1) (some 1))._elements.getD 2
        (.mk "" [] none [])).children.map Element.children
      = [[.mk "SelectionIdentifier" [] (some (.str "a")) [],
          .mk "Text" [] (some (.str "Apple")) []],
         [.mk "SelectionIdentifier" [] (some (.str "b")) [],
          .mk "Text" [] (some (.str "Banana")) []]] :=
  ⟨rfl, rfl, rfl⟩

/-- C8: from_file on a path whose extension is neither csv nor json fails
with the unknown-extension error; the result is the same whatever the two
file-loading oracles would return, because neither is consulted, and no
credential record is produced. -/
theorem C8_from_file_unknown_extension
    (self : AmazonIAMUser) (file_path : String)
    (h1 : (⟨(pySplit '.' file_path.data).getLastD []⟩ : String) ≠ "csv")
    (h2 : (⟨(pySplit '.' file_path.data).getLastD []⟩ : String) ≠ "json") :
    ∀ load_csv load_json,
      AmazonIAMUser.from_file self file_path load_csv load_json
        = .error "Unknown file extension" := by
  intro load_csv load_json
  rw [AmazonIAMUser.from_file]
  simp only [h1, h2, if_false]

/-- Witness for C8: a path ending in .txt (extension txt) is rejected
independently of the loaders. -/
theorem C8_from_file_unknown_extension_witness :
    AmazonIAMUser.from_file {} "creds.txt" (fun _ => []) (fun _ => [])
      = .error "Unknown file extension" :=
  C8_from_file_unknown_extension {} "creds.txt" (by decide) (by decide)
    (fun _ => []) (fun _ => [])

/-- C10: a zero length bound is treated exactly like an absent one — the
whole FreeTextAnswer state is unchanged by replacing some 0 with none, in
particular no minLength/maxLength attribute is emitted for it on the
Length node — and when reg_exp is falsy, is_numeric is false and both
bounds are zero or absent, no Constraints node is emitted at all. -/
theorem C10_zero_length_bound_like_absent
    (dt : Option String) (lb : Option Int) (re et : Option String)
    (mxl : Option Int) (b : Bool) (mnv mxv : Option Int) :
    (FreeTextAnswer.init dt lb re et (some 0) mxl b mnv mxv
      = FreeTextAnswer.init dt lb re et none mxl b mnv mxv)
    ∧ (∀ mnl, FreeTextAnswer.init dt lb re et mnl (some 0) b mnv mxv
      = FreeTextAnswer.init dt lb re et mnl none b mnv mxv)
    ∧ (FreeTextAnswer._add_length_constraints (some 0) mxl
      = FreeTextAnswer._add_length_constraints none mxl)
    ∧ (∀ mnl, FreeTextAnswer._add_length_constraints mnl (some 0)
      = FreeTextAnswer._add_length_constraints mnl none)
    ∧ (∀ mnl mxl2, truthyOptInt mnl = false → truthyOptInt mxl2 = false →
        truthyOptStr re = false →
        containsTagList (FreeTextAnswer.init dt lb re et mnl mxl2 false mnv mxv)._elements
          "Constraints" = false) := by
  have hz : truthyOptInt (some 0) = truthyOptInt none := by decide
  have hg : (some (0 : Int)).getD 0 = (none : Option Int).getD 0 := by decide
  refine ⟨?_, fun mnl => ?_, ?_, fun mnl => ?_, fun mnl mxl2 hmnl hmxl2 hre => ?_⟩
  · rw [FreeTextAnswer.init, FreeTextAnswer.init,
        FreeTextAnswer._add_constraints, FreeTextAnswer._add_constraints,
        FreeTextAnswer._add_length_constraints, FreeTextAnswer._add_length_constraints,
        hz, hg]
  · rw [FreeTextAnswer.init, FreeTextAnswer.init,
        FreeTextAnswer._add_constraints, FreeTextAnswer._add_constraints,
        FreeTextAnswer._add_length_constraints, FreeTextAnswer._add_length_constraints,
        hz, hg]
  · rw [FreeTextAnswer._add_length_constraints, FreeTextAnswer._add_length_constraints, hz, hg]
  · rw [FreeTextAnswer._add_length_constraints, FreeTextAnswer._add_length_constraints, hz, hg]
  · have helems : (FreeTextAnswer.init dt lb re et mnl mxl2 false mnv mxv)._elements
        = (if truthyOptStr dt
           then [Element.mk "DefaultText" [] (some (.str (dt.getD ""))) []] else []) ++
          (if truthyOptInt lb
           then [Element.mk "NumberOfLinesSuggestion" [] (some (.str (lb.getD 0).repr)) []]
           else []) := by
      rw [FreeTextAnswer.init]
      simp only [hre, hmnl, hmxl2, Bool.false_or, Bool.or_false, if_false,
        Bool.false_eq_true, List.nil_append]
    rw [helems, containsTagList_append, containsTagList_ifSingle, containsTagList_ifSingle,
        containsTag_leaf, containsTag_leaf]
    simp

/-- Witness for C10: both bounds zero, no regex, not numeric — the
element list carries no Constraints node; and the Length helper ignores a
zero bound. -/
theorem C10_zero_length_bound_like_absent_witness :
    containsTagList
      (FreeTextAnswer.init none none none none (some 0) (some 0) false none none)._elements
      "Constraints" = false
    ∧ FreeTextAnswer._add_length_constraints (some 0) (some 4)
      = FreeTextAnswer._add_length_constraints none (some 4) :=
  have h := C10_zero_length_bound_like_absent none none none none (some 4) false none none
  ⟨h.2.2.2.2 (some 0) (some 0) (by decide) (by decide) (by decide), h.2.2.1⟩
